import Mathlib

/-!
Shallow embedding of the ClervIQ voice engine
(`src/voice_engine/clerviq_voice_generator.py`).

Waveforms (numpy float arrays) are lists of rationals, int16 sample arrays
are lists of integers, the client registry (a Python dict) is a function
map from client ids to entries, directories on disk are explicit structure
fields, and raised exceptions are `Except` errors (or `Option.none` where
the code catches and returns `None`).  External library calls — the TTS
inference backend, librosa's `time_stretch` and `pitch_shift` — are
abstract function parameters, since the code treats them as opaque
capability providers.
-/

namespace ClervIQ

/-- The `VoiceGender` enum. -/
inductive VoiceGender where
  | MALE
  | FEMALE
  | NEUTRAL
deriving DecidableEq

/-- `VoiceGender.value` strings. -/
def VoiceGender.value : VoiceGender → String
  | .MALE => "male"
  | .FEMALE => "female"
  | .NEUTRAL => "neutral"

/-- `VoiceGender(s)` in Python: the member whose value is `s`; an unknown
value raises `ValueError`, here `none`. -/
def VoiceGender.fromValue : String → Option VoiceGender
  | "male" => some .MALE
  | "female" => some .FEMALE
  | "neutral" => some .NEUTRAL
  | _ => none

/-- The `Accent` enum. -/
inductive Accent where
  | AMERICAN
  | BRITISH
  | AUSTRALIAN
  | SPANISH
  | FRENCH
  | GERMAN
  | ITALIAN
  | PORTUGUESE
  | POLISH
  | TURKISH
  | RUSSIAN
  | DUTCH
  | CZECH
  | ARABIC
  | CHINESE
  | JAPANESE
  | KOREAN
deriving DecidableEq

/-- `Accent.value` strings (the backend language codes). -/
def Accent.value : Accent → String
  | .AMERICAN => "en"
  | .BRITISH => "en-gb"
  | .AUSTRALIAN => "en-au"
  | .SPANISH => "es"
  | .FRENCH => "fr"
  | .GERMAN => "de"
  | .ITALIAN => "it"
  | .PORTUGUESE => "pt"
  | .POLISH => "pl"
  | .TURKISH => "tr"
  | .RUSSIAN => "ru"
  | .DUTCH => "nl"
  | .CZECH => "cs"
  | .ARABIC => "ar"
  | .CHINESE => "zh-cn"
  | .JAPANESE => "ja"
  | .KOREAN => "ko"

/-- `Accent(s)` in Python: the member whose value is `s`. -/
def Accent.fromValue : String → Option Accent
  | "en" => some .AMERICAN
  | "en-gb" => some .BRITISH
  | "en-au" => some .AUSTRALIAN
  | "es" => some .SPANISH
  | "fr" => some .FRENCH
  | "de" => some .GERMAN
  | "it" => some .ITALIAN
  | "pt" => some .PORTUGUESE
  | "pl" => some .POLISH
  | "tr" => some .TURKISH
  | "ru" => some .RUSSIAN
  | "nl" => some .DUTCH
  | "cs" => some .CZECH
  | "ar" => some .ARABIC
  | "zh-cn" => some .CHINESE
  | "ja" => some .JAPANESE
  | "ko" => some .KOREAN
  | _ => none

/-- The `Emotion` enum. -/
inductive Emotion where
  | NEUTRAL
  | HAPPY
  | SAD
  | ANGRY
  | EXCITED
  | CALM
  | CONFIDENT
  | PROFESSIONAL
  | FRIENDLY
  | ENTHUSIASTIC
deriving DecidableEq

/-- `Emotion.value` strings. -/
def Emotion.value : Emotion → String
  | .NEUTRAL => "neutral"
  | .HAPPY => "happy"
  | .SAD => "sad"
  | .ANGRY => "angry"
  | .EXCITED => "excited"
  | .CALM => "calm"
  | .CONFIDENT => "confident"
  | .PROFESSIONAL => "professional"
  | .FRIENDLY => "friendly"
  | .ENTHUSIASTIC => "enthusiastic"

/-- `Emotion(s)` in Python: the member whose value is `s`. -/
def Emotion.fromValue : String → Option Emotion
  | "neutral" => some .NEUTRAL
  | "happy" => some .HAPPY
  | "sad" => some .SAD
  | "angry" => some .ANGRY
  | "excited" => some .EXCITED
  | "calm" => some .CALM
  | "confident" => some .CONFIDENT
  | "professional" => some .PROFESSIONAL
  | "friendly" => some .FRIENDLY
  | "enthusiastic" => some .ENTHUSIASTIC
  | _ => none

/-- The `VoiceConfig` dataclass, with the dataclass field defaults.  The
numpy embedding vector is a list of rationals. -/
structure VoiceConfig where
  name : String
  gender : VoiceGender
  accent : Accent
  emotion : Emotion := .NEUTRAL
  pitch_shift : ℚ := 0
  speed : ℚ := 1
  energy : ℚ := 1
  is_cloned : Bool := false
  voice_sample_path : Option String := none
  embedding : Option (List ℚ) := none
deriving DecidableEq

/-- The dictionary produced by `VoiceConfig.to_dict`, i.e. the content of
the `config.json` document written by `VoiceConfig.save`: enum fields
replaced by their value strings. -/
structure ConfigDict where
  name : String
  gender : String
  accent : String
  emotion : String
  pitch_shift : ℚ
  speed : ℚ
  energy : ℚ
  is_cloned : Bool
  voice_sample_path : Option String
  embedding : Option (List ℚ)
deriving DecidableEq

/-- `VoiceConfig.to_dict`: `asdict` with enums converted to their value
strings.  The embedding is never serialized inline: the code sets
`data['embedding'] = None` when an embedding exists, and `asdict` already
yields `None` otherwise. -/
def VoiceConfig.to_dict (c : VoiceConfig) : ConfigDict where
  name := c.name
  gender := c.gender.value
  accent := c.accent.value
  emotion := c.emotion.value
  pitch_shift := c.pitch_shift
  speed := c.speed
  energy := c.energy
  is_cloned := c.is_cloned
  voice_sample_path := c.voice_sample_path
  embedding := none

/-- The persistence-relevant contents of a voice directory: the
`config.json` document (when present) and the `config.npy` embedding
sidecar (when present). -/
structure VoiceDir where
  configJson : Option ConfigDict
  npy : Option (List ℚ)
deriving DecidableEq

/-- `VoiceConfig.save`: writes the JSON document, and — only when an
embedding exists — the embedding to the sidecar `.npy` file. -/
def VoiceConfig.save (c : VoiceConfig) : VoiceDir where
  configJson := some c.to_dict
  npy := c.embedding

/-- `VoiceCloningEngine.load_voice`: raises `FileNotFoundError` when
`config.json` is absent; otherwise reads the document, reconstructs the
three enums from their value strings (an unknown value raises), and loads
the embedding from the sidecar `.npy` file when that file exists. -/
def load_voice (d : VoiceDir) : Except String VoiceConfig :=
  match d.configJson with
  | none => .error "Voice config not found"
  | some doc =>
    match VoiceGender.fromValue doc.gender, Accent.fromValue doc.accent,
        Emotion.fromValue doc.emotion with
    | some g, some a, some e =>
      .ok { name := doc.name, gender := g, accent := a, emotion := e,
            pitch_shift := doc.pitch_shift, speed := doc.speed,
            energy := doc.energy, is_cloned := doc.is_cloned,
            voice_sample_path := doc.voice_sample_path,
            embedding := match d.npy with
              | some emb => some emb
              | none => doc.embedding }
    | _, _, _ => .error "invalid enum value in voice config"

/-- The `VoiceConfig` constructed by `clone_voice_from_file` once the
sample has been preprocessed and the embedding extracted: `is_cloned` set,
sample path and embedding stored, every other field left at its dataclass
default. -/
def cloneVoiceConfig (voice_name : String) (gender : VoiceGender)
    (accent : Accent) (sample_path : String) (emb : List ℚ) : VoiceConfig where
  name := voice_name
  gender := gender
  accent := accent
  is_cloned := true
  voice_sample_path := some sample_path
  embedding := some emb

/-- `np.max(np.abs(audio))` over a waveform (0 for the empty array, on
which numpy would raise; the claims use non-empty inputs). -/
def maxAbs (audio : List ℚ) : ℚ := audio.foldr (fun x m => max |x| m) 0

/-- The normalization step of `VoiceCloningEngine._load_and_preprocess`:
`audio = audio / np.max(np.abs(audio))`.  There is no guard for an
all-zero input: the divisor is then 0, where numpy produces NaN samples
(warnings are suppressed module-wide); in this rational model division by
zero yields 0. -/
def peakNormalize (audio : List ℚ) : List ℚ :=
  audio.map (fun x => x / maxAbs audio)

/-- numpy `astype(np.int16)` truncation toward zero of one scaled sample. -/
def toInt16 (x : ℚ) : Int := if 0 ≤ x then ⌊x⌋ else ⌈x⌉

/-- `VoiceCloningEngine._load_and_preprocess` after librosa has decoded
the file to a mono waveform at the engine rate: peak-normalize, then
convert to int16 via `(audio * 32767).astype(np.int16)`. -/
def load_and_preprocess (audio : List ℚ) : List Int :=
  (peakNormalize audio).map (fun x => toInt16 (x * 32767))

/-- The duration check of `clone_voice_from_file` (lines 189–197):
`duration = len(audio_array) / sr`; under 10 s only a warning is printed;
over 120 s the int16 array is cut to its first `60 * sr` samples;
otherwise it is kept whole. -/
def cloneTruncate (audio_array : List Int) (sr : Nat) : List Int :=
  let duration : ℚ := (audio_array.length : ℚ) / (sr : ℚ)
  if duration < 10 then audio_array
  else if duration > 120 then audio_array.take (60 * sr)
  else audio_array

/-- A loaded TTS inference backend (`self.tts.tts`): text, optional
speaker-wav path, language code → waveform, or an inference exception. -/
def Backend := String → Option String → String → Except String (List ℚ)

/-- One sample of `np.clip(audio * config.energy, -1.0, 1.0)`. -/
def clipSample (energy x : ℚ) : ℚ := min (max (x * energy) (-1)) 1

/-- `TTSEngine._apply_prosody`.  `time_stretch` and `pitch_shift` are
librosa effects taking the waveform and the rate / semitone count; each
returns `none` when it raises.  The single `try/except` wrapping all three
steps means that a raise at any step returns the audio as transformed so
far (the local `audio` variable at that point) and skips every later step.
A step whose parameter equals its neutral value (1.0 for speed and energy,
0.0 for pitch) is skipped.  The energy step (multiply and clip) cannot
raise. -/
def apply_prosody (time_stretch pitch_shift : List ℚ → ℚ → Option (List ℚ))
    (config : VoiceConfig) (audio : List ℚ) : List ℚ :=
  match (if config.speed ≠ 1 then time_stretch audio config.speed
         else some audio) with
  | none => audio
  | some a1 =>
    match (if config.pitch_shift ≠ 0 then pitch_shift a1 config.pitch_shift
           else some a1) with
    | none => a1
    | some a2 =>
      if config.energy ≠ 1 then a2.map (clipSample config.energy) else a2

/-- `TTSEngine.synthesize`.  `tts` is `none` when neither backend could be
loaded at construction (`raise RuntimeError`, the `.error` branch).  The
language is `voice_config.accent.value` (the `accent` attribute is always
present on `VoiceConfig`).  A non-empty `voice_sample_path` that exists on
disk (`fs_exists` models `os.path.exists`) is passed to the backend as the
speaker wav.  A backend exception during inference is caught and Python
`None` is returned (`.ok none`).  On success prosody is applied; with an
`output_path` the file is written and the path returned (`Sum.inr`),
otherwise the waveform itself (`Sum.inl`). -/
def synthesize (tts : Option Backend)
    (time_stretch pitch_shift : List ℚ → ℚ → Option (List ℚ))
    (fs_exists : String → Bool) (text : String) (voice_config : VoiceConfig)
    (output_path : Option String) :
    Except String (Option (List ℚ ⊕ String)) :=
  match tts with
  | none => .error "TTS engine not initialized"
  | some backend =>
    let language := voice_config.accent.value
    let result := match voice_config.voice_sample_path with
      | some p =>
        if p ≠ "" ∧ fs_exists p then backend text (some p) language
        else backend text none language
      | none => backend text none language
    match result with
    | .error _ => .ok none
    | .ok wav =>
      let wav2 := apply_prosody time_stretch pitch_shift voice_config wav
      match output_path with
      | some path => .ok (some (Sum.inr path))
      | none => .ok (some (Sum.inl wav2))

/-- A profile record appended to a client's `voices` list by
`upload_voice`. -/
structure VoiceEntry where
  name : String
  path : String
  gender : String
  accent : String
deriving DecidableEq

/-- One value of the `clients` dict of `ClientVoiceManager`. -/
structure ClientData where
  name : String
  company : String
  voices : List VoiceEntry
  created_at : String
deriving DecidableEq

/-- The in-memory `clients` dict, as a function map. -/
def Clients := String → Option ClientData

/-- The empty registry (a fresh manager with no persisted catalog). -/
def emptyClients : Clients := fun _ => none

/-- `ClientVoiceManager.add_client`: unconditionally assigns
`clients[client_id]` a fresh entry with an empty `voices` list, with no
check whether the id is already present.  `created_at` comes from the
filesystem ctime and is passed in here. -/
def add_client (m : Clients) (client_id client_name company created_at : String) :
    Clients :=
  fun cid =>
    if cid = client_id then
      some { name := client_name, company := company, voices := [],
             created_at := created_at }
    else m cid

/-- `ClientVoiceManager.get_client_voices`: raises `ValueError` for a
client id not in the dict, otherwise returns the stored voice list. -/
def get_client_voices (m : Clients) (client_id : String) :
    Except String (List VoiceEntry) :=
  match m client_id with
  | none => .error ("Client " ++ client_id ++ " not found")
  | some d => .ok d.voices

/-- Python `s.replace(" ", "_")`: every space character replaced by an
underscore. -/
def replaceSpaces (s : String) : String :=
  (s.toList.map (fun c => if c = ' ' then '_' else c)).asString

/-- `ClientVoiceManager.upload_voice`, registry effect: raises
`ValueError` for an unknown client id; otherwise it delegates cloning to
`clone_voice_from_file` into the client-scoped subdirectory (a cloning
exception would propagate before any registry change; the returned
`VoiceConfig` is handed back to the caller unchanged and is modelled by
`cloneVoiceConfig`), then appends a profile record to the client's
`voices` list — with no check against an existing profile of the same
name — and persists the catalog. -/
def upload_voice (m : Clients) (storage_path client_id voice_name : String)
    (gender : VoiceGender) (accent : Accent) : Except String Clients :=
  match m client_id with
  | none => .error ("Client " ++ client_id ++ " not found")
  | some d =>
    let voice_dir := storage_path ++ "/" ++ client_id ++ "/"
      ++ replaceSpaces voice_name
    .ok (fun cid =>
      if cid = client_id then
        some { d with voices := d.voices ++
          [{ name := voice_name, path := voice_dir, gender := gender.value,
             accent := accent.value }] }
      else m cid)

/-- `PresetVoices.professional_male`. -/
def PresetVoices.professional_male : VoiceConfig where
  name := "Professional Male"
  gender := .MALE
  accent := .AMERICAN
  emotion := .PROFESSIONAL
  pitch_shift := -2
  speed := 0.95
  energy := 0.9

/-- `PresetVoices.professional_female`. -/
def PresetVoices.professional_female : VoiceConfig where
  name := "Professional Female"
  gender := .FEMALE
  accent := .AMERICAN
  emotion := .PROFESSIONAL
  pitch_shift := 1
  speed := 1
  energy := 0.9

/-! Concrete instances used to evaluate the model on closed inputs. -/

/-- A backend that always raises during inference. -/
def failingBackend : Backend := fun _ _ _ => .error "inference failed"

/-- A backend that raises on the empty text and otherwise returns a fixed
waveform. -/
def trimBackend : Backend := fun text _ _ =>
  if text = "" then .error "empty text" else .ok [1/2]

/-- A backend that always succeeds with a fixed waveform. -/
def constBackend : Backend := fun _ _ _ => .ok [1/2]

/-- A time-stretch stand-in that duplicates the buffer. -/
def stretchDouble : List ℚ → ℚ → Option (List ℚ) := fun a _ => some (a ++ a)

/-- A pitch-shift stand-in that prepends a zero sample. -/
def pitchCons : List ℚ → ℚ → Option (List ℚ) := fun a _ => some (0 :: a)

/-- A librosa-effect stand-in that always raises. -/
def stretchRaise : List ℚ → ℚ → Option (List ℚ) := fun _ _ => none

/-- A librosa-effect stand-in that returns its input unchanged. -/
def idStretch : List ℚ → ℚ → Option (List ℚ) := fun a _ => some a

/-- A config whose three prosody parameters are all non-neutral. -/
def prosodyCfg : VoiceConfig where
  name := "Prosody Test"
  gender := .FEMALE
  accent := .AMERICAN
  pitch_shift := 1
  speed := 2
  energy := 2

/-- A config with every prosody parameter at its dataclass default, i.e.
neutral. -/
def neutralCfg : VoiceConfig where
  name := "Neutral"
  gender := .NEUTRAL
  accent := .AMERICAN

/-- The registry reached from empty by `add_client` for `c1` followed by
one `upload_voice` of voice `Dana`. -/
def clientsOneVoice : Clients :=
  (upload_voice (add_client emptyClients "c1" "Acme" "Co" "t0")
    "client_voices" "c1" "Dana" .FEMALE .AMERICAN).toOption.getD emptyClients

/-- The registry reached from `clientsOneVoice` by a second `upload_voice`
with the same client id and the same voice name. -/
def clientsDupVoice : Clients :=
  (upload_voice clientsOneVoice "client_voices" "c1" "Dana" .FEMALE
    .AMERICAN).toOption.getD emptyClients

/-! Helper lemmas. -/

/-- `maxAbs` on the empty waveform. -/
theorem maxAbs_nil : maxAbs [] = 0 := rfl

/-- `maxAbs` peels one sample. -/
theorem maxAbs_cons (x : ℚ) (l : List ℚ) :
    maxAbs (x :: l) = max |x| (maxAbs l) := rfl

/-- Every sample is bounded by the waveform's `maxAbs`. -/
theorem le_maxAbs_of_mem {x : ℚ} {l : List ℚ} (hx : x ∈ l) :
    |x| ≤ maxAbs l := by
  induction l with
  | nil => cases hx
  | cons y t ih =>
    rw [maxAbs_cons]
    rcases List.mem_cons.mp hx with h | h
    · rw [h]; exact le_max_left _ _
    · exact le_trans (ih h) (le_max_right _ _)

/-- `maxAbs` is nonnegative. -/
theorem maxAbs_nonneg (l : List ℚ) : 0 ≤ maxAbs l := by
  induction l with
  | nil => exact le_refl 0
  | cons y t ih => rw [maxAbs_cons]; exact le_trans ih (le_max_right _ _)

/-- Dividing every sample by a positive constant divides `maxAbs`. -/
theorem maxAbs_map_div (l : List ℚ) (m : ℚ) (hm : 0 < m) :
    maxAbs (l.map (fun x => x / m)) = maxAbs l / m := by
  induction l with
  | nil => simp [maxAbs_nil]
  | cons y t ih =>
    rw [List.map_cons, maxAbs_cons, maxAbs_cons, ih, abs_div, abs_of_pos hm,
      max_div_div_right (le_of_lt hm)]

/-- A raised backend exception during inference is caught by `synthesize`,
which returns Python `None`, whatever speaker wav and language were
selected. -/
theorem synthesize_none_of_backend_raises (backend : Backend)
    (ts ps : List ℚ → ℚ → Option (List ℚ)) (fs : String → Bool)
    (text : String) (cfg : VoiceConfig) (out : Option String)
    (hfail : ∀ sw lang, ∃ msg, backend text sw lang = .error msg) :
    synthesize (some backend) ts ps fs text cfg out = .ok none := by
  unfold synthesize
  cases hpath : cfg.voice_sample_path with
  | none =>
    obtain ⟨msg, hmsg⟩ := hfail none cfg.accent.value
    simp [hmsg]
  | some p =>
    by_cases hp : p ≠ "" ∧ fs p
    · obtain ⟨msg, hmsg⟩ := hfail (some p) cfg.accent.value
      simp [hp, hmsg]
    · obtain ⟨msg, hmsg⟩ := hfail none cfg.accent.value
      simp [hp, hmsg]

/-! Claim theorems. -/

/-- Claim C1 (counterexample): a 90-second sample — 1984500 int16 samples
at the engine rate of 22050 Hz — has duration above 60 s, yet
`cloneTruncate` returns it whole rather than cut to its first 60 s: the
code only truncates above 120 s, and 60 s would be 1323000 samples. -/
theorem C1_counterexample :
    cloneTruncate (List.replicate 1984500 1) 22050 = List.replicate 1984500 1
    ∧ ((List.replicate 1984500 (1 : Int)).length : ℚ) / (22050 : ℚ) > 60
    ∧ (List.replicate 1984500 (1 : Int)).length ≠ 60 * 22050 := by
  refine ⟨?_, ?_, ?_⟩
  · simp only [cloneTruncate, List.length_replicate]
    norm_num
  · simp only [List.length_replicate]
    norm_num
  · simp only [List.length_replicate]
    norm_num

/-- Claim C1 (amended): `clone_voice_from_file` truncates the preprocessed
sample to its first 60 seconds only when the duration exceeds 120 seconds;
a sample of duration at most 120 seconds — in particular one between 60
and 120 seconds — is kept whole. -/
theorem C1_amended (audio_array : List Int) (sr : Nat) :
    ((audio_array.length : ℚ) / (sr : ℚ) > 120 →
      cloneTruncate audio_array sr = audio_array.take (60 * sr))
    ∧ ((audio_array.length : ℚ) / (sr : ℚ) ≤ 120 →
      cloneTruncate audio_array sr = audio_array) := by
  constructor
  · intro h
    simp only [cloneTruncate]
    rw [if_neg (by push_neg; linarith), if_pos h]
  · intro h
    simp only [cloneTruncate]
    split
    · rfl
    · rw [if_neg (by push_neg; linarith)]

/-- Claim C1 (witness): both branches of `C1_amended` evaluated — a
121-sample array at 1 Hz (121 s) is cut to its first 60 samples, and a
90-sample array at 1 Hz (90 s) is kept whole. -/
theorem C1_amended_witness :
    cloneTruncate (List.replicate 121 1) 1
      = (List.replicate 121 (1 : Int)).take (60 * 1)
    ∧ cloneTruncate (List.replicate 90 1) 1 = List.replicate 90 1 :=
  ⟨(C1_amended (List.replicate 121 1) 1).1
     (by simp only [List.length_replicate]; norm_num),
   (C1_amended (List.replicate 90 1) 1).2
     (by simp only [List.length_replicate]; norm_num)⟩

/-- Claim C2 (counterexample): with a loaded backend that throws during
inference, `synthesize` does not raise or propagate a synthesis error — it
catches the exception and returns Python `None` (`.ok none`), a non-audio
sentinel. -/
theorem C2_counterexample :
    synthesize (some failingBackend) idStretch idStretch (fun _ => false)
      "hello" PresetVoices.professional_male none = .ok none := rfl

/-- Claim C2 (amended): for every text and voice config, if the loaded
backend throws during inference, `synthesize` catches the exception, logs
a warning, and returns `None` — a non-audio sentinel — to the caller,
rather than raising or propagating a synthesis error. -/
theorem C2_amended (backend : Backend)
    (ts ps : List ℚ → ℚ → Option (List ℚ)) (fs : String → Bool)
    (text : String) (cfg : VoiceConfig) (out : Option String)
    (hfail : ∀ sw lang, ∃ msg, backend text sw lang = .error msg) :
    synthesize (some backend) ts ps fs text cfg out = .ok none :=
  synthesize_none_of_backend_raises backend ts ps fs text cfg out hfail

/-- Claim C2 (witness): `C2_amended` evaluated on the always-raising
backend. -/
theorem C2_amended_witness :
    synthesize (some failingBackend) idStretch idStretch (fun _ => false)
      "hi" PresetVoices.professional_female none = .ok none :=
  C2_amended failingBackend idStretch idStretch (fun _ => false) "hi"
    PresetVoices.professional_female none
    (fun _ _ => ⟨"inference failed", rfl⟩)

/-- Claim C3 (counterexample): in the reachable registry holding client
`c1` with one voice `Dana`, calling `add_client` again with id `c1`
raises no error and silently replaces the entry — the resulting entry has
an empty voice list, orphaning the existing `Dana` profile. -/
theorem C3_counterexample :
    (clientsOneVoice "c1").map ClientData.voices
      = some [{ name := "Dana", path := "client_voices/c1/Dana",
                gender := "female", accent := "en" }]
    ∧ (add_client clientsOneVoice "c1" "Acme Again" "Co" "t1") "c1"
      = some { name := "Acme Again", company := "Co", voices := [],
               created_at := "t1" } := by
  constructor
  · rfl
  · rfl

/-- Claim C3 (amended): `add_client` with an already-registered client id
does not fail: it silently overwrites the registry entry with a fresh one
whose voice list is empty, so the client's existing voices are orphaned
rather than protected by a hard error. -/
theorem C3_amended (m : Clients)
    (client_id client_name company created_at : String) :
    (add_client m client_id client_name company created_at) client_id
      = some { name := client_name, company := company, voices := [],
               created_at := created_at } := by
  simp [add_client]

/-- Claim C4 (counterexample): with a backend that raises on
whitespace-only text, `synthesize` on the empty string returns Python
`None` — no audio at all — instead of a short fallback utterance: the
code has no empty-text special case. -/
theorem C4_counterexample :
    synthesize (some trimBackend) idStretch idStretch (fun _ => false)
      "" PresetVoices.professional_male none = .ok none := rfl

/-- Claim C4 (amended): `synthesize` does not special-case empty or
whitespace-only text and produces no fallback utterance: the text is
passed to the backend unchanged, so when the backend raises on it the
result is `None` (no audio), and when the backend succeeds the result is
exactly the backend's waveform after prosody. -/
theorem C4_amended (backend : Backend)
    (ts ps : List ℚ → ℚ → Option (List ℚ)) (fs : String → Bool)
    (text : String) (cfg : VoiceConfig) :
    ((∀ sw lang, ∃ msg, backend text sw lang = .error msg) →
      synthesize (some backend) ts ps fs text cfg none = .ok none)
    ∧ ∀ wav, cfg.voice_sample_path = none →
        backend text none cfg.accent.value = .ok wav →
        synthesize (some backend) ts ps fs text cfg none
          = .ok (some (Sum.inl (apply_prosody ts ps cfg wav))) := by
  constructor
  · exact fun h => synthesize_none_of_backend_raises backend ts ps fs text cfg none h
  · intro wav hpath hok
    simp [synthesize, hpath, hok]

/-- Claim C4 (witness): `C4_amended` evaluated on the empty text — with a
backend raising on whitespace-only text the result is `None`; with an
always-succeeding backend the result is the backend's waveform after
prosody, not a separate fallback utterance. -/
theorem C4_amended_witness :
    synthesize (some trimBackend) idStretch idStretch (fun _ => false) ""
      PresetVoices.professional_male none = .ok none
    ∧ synthesize (some constBackend) idStretch idStretch (fun _ => false) ""
        PresetVoices.professional_male none
      = .ok (some (Sum.inl (apply_prosody idStretch idStretch
          PresetVoices.professional_male [1/2]))) :=
  ⟨(C4_amended trimBackend idStretch idStretch (fun _ => false) ""
      PresetVoices.professional_male).1 (fun _ _ => ⟨"empty text", rfl⟩),
   (C4_amended constBackend idStretch idStretch (fun _ => false) ""
      PresetVoices.professional_male).2 [1/2] rfl rfl⟩

/-- Claim C5: `_apply_prosody` applies the transforms in the fixed order
time-stretch (speed), then pitch-shift, then amplitude scaling clamped to
the valid audio range [-1, 1] (energy): when all three parameters are
non-neutral and the two librosa steps succeed, the output is the
clamp-scaled pitch-shift of the time-stretch of the input; and every step
whose parameter equals its neutral value is skipped, so with speed 1,
pitch 0 and energy 1 the output equals the backend's raw waveform. -/
theorem C5_prosody_order (ts ps : List ℚ → ℚ → Option (List ℚ))
    (cfg : VoiceConfig) (audio a1 a2 : List ℚ)
    (hs : cfg.speed ≠ 1) (hp : cfg.pitch_shift ≠ 0) (he : cfg.energy ≠ 1)
    (h1 : ts audio cfg.speed = some a1)
    (h2 : ps a1 cfg.pitch_shift = some a2) :
    apply_prosody ts ps cfg audio = a2.map (clipSample cfg.energy)
    ∧ ∀ (ts2 ps2 : List ℚ → ℚ → Option (List ℚ)) (cfg2 : VoiceConfig)
        (audio2 : List ℚ), cfg2.speed = 1 → cfg2.pitch_shift = 0 →
        cfg2.energy = 1 → apply_prosody ts2 ps2 cfg2 audio2 = audio2 := by
  constructor
  · simp [apply_prosody, hs, hp, he, h1, h2]
  · intro ts2 ps2 cfg2 audio2 hs2 hp2 he2
    simp [apply_prosody, hs2, hp2, he2]

/-- Claim C5 (witness): `C5_prosody_order` evaluated with a time-stretch
stand-in that duplicates the buffer and a pitch-shift stand-in that
prepends a zero sample, on the waveform `[1/2]` under speed 2 / pitch 1 /
energy 2, and the neutral-identity part on a default-prosody config. -/
theorem C5_prosody_order_witness :
    apply_prosody stretchDouble pitchCons prosodyCfg [1/2]
      = ([0, 1/2, 1/2] : List ℚ).map (clipSample prosodyCfg.energy)
    ∧ apply_prosody stretchDouble pitchCons neutralCfg [1/2, 1/3]
      = [1/2, 1/3] :=
  ⟨(C5_prosody_order stretchDouble pitchCons prosodyCfg [1/2] [1/2, 1/2]
      [0, 1/2, 1/2] (by decide) (by decide) (by decide) rfl rfl).1,
   (C5_prosody_order stretchDouble pitchCons prosodyCfg [1/2] [1/2, 1/2]
      [0, 1/2, 1/2] (by decide) (by decide) (by decide) rfl rfl).2
     stretchDouble pitchCons neutralCfg [1/2, 1/3] rfl rfl rfl⟩

/-- Claim C6 (counterexample): with a speed step that raises and a total
pitch step, on a config with speed 2 / pitch 1 / energy 2 and the waveform
`[1/2]`, `_apply_prosody` returns the waveform untouched: the pitch and
energy steps — both non-neutral — are NOT applied after the speed failure
(applying them to the audio would give `[0, 1]`), because one `try/except`
wraps all three steps. -/
theorem C6_counterexample :
    apply_prosody stretchRaise pitchCons prosodyCfg [1/2] = [1/2]
    ∧ ([1/2] : List ℚ)
      ≠ ([0, 1/2] : List ℚ).map (clipSample prosodyCfg.energy) := by
  constructor
  · rfl
  · norm_num [clipSample, prosodyCfg]

/-- Claim C6 (amended): a prosody step failure aborts the whole remaining
chain rather than only the failing step: every later step is skipped even
when its parameter is non-neutral, and the audio as transformed by the
steps before the failure is returned (so the synthesis result is still
returned rather than discarded).  Concretely: a raise in the speed step
returns the original waveform; a raise in the pitch step after a
successful stretch returns the stretched waveform with the energy step
skipped. -/
theorem C6_amended (ts ps : List ℚ → ℚ → Option (List ℚ))
    (cfg : VoiceConfig) (audio : List ℚ) :
    (cfg.speed ≠ 1 → ts audio cfg.speed = none →
      apply_prosody ts ps cfg audio = audio)
    ∧ ∀ a1, cfg.speed ≠ 1 → ts audio cfg.speed = some a1 →
        cfg.pitch_shift ≠ 0 → ps a1 cfg.pitch_shift = none →
        apply_prosody ts ps cfg audio = a1 := by
  constructor
  · intro hs hf
    simp [apply_prosody, hs, hf]
  · intro a1 hs h1 hp hf
    simp [apply_prosody, hs, h1, hp, hf]

/-- Claim C6 (witness): `C6_amended` evaluated — a raising speed step
returns `[1/3]` unchanged, and a raising pitch step after a duplicating
stretch returns the stretched `[1/3, 1/3]` without energy scaling. -/
theorem C6_amended_witness :
    apply_prosody stretchRaise pitchCons prosodyCfg [1/3] = [1/3]
    ∧ apply_prosody stretchDouble stretchRaise prosodyCfg [1/3]
      = [1/3, 1/3] :=
  ⟨(C6_amended stretchRaise pitchCons prosodyCfg [1/3]).1 (by decide) rfl,
   (C6_amended stretchDouble stretchRaise prosodyCfg [1/3]).2 [1/3, 1/3]
     (by decide) rfl (by decide) rfl⟩

/-- Claim C7: round-trip — `load_voice` on the directory written by
saving the `VoiceConfig` that `clone_voice_from_file` returns
reconstructs a config equal in every field (name, gender, accent,
emotion, prosody parameters, cloned flag, sample path, and embedding, the
embedding recovered from the sidecar `.npy` since the JSON document never
carries it inline); and `load_voice` fails with a not-found error when
the config document is absent. -/
theorem C7_roundtrip (voice_name : String) (gender : VoiceGender)
    (accent : Accent) (sample_path : String) (emb : List ℚ) :
    load_voice (VoiceConfig.save
        (cloneVoiceConfig voice_name gender accent sample_path emb))
      = .ok (cloneVoiceConfig voice_name gender accent sample_path emb)
    ∧ ∀ npy, load_voice { configJson := none, npy := npy }
        = .error "Voice config not found" := by
  constructor
  · cases gender <;> cases accent <;> rfl
  · intro npy
    rfl

/-- Claim C8 (counterexample): the registry state reached from empty by
`add_client` for `c1` and two `upload_voice` calls both registering voice
name `Dana` holds two profiles named `Dana` under that client —
`upload_voice` performs no name-uniqueness check, so the claimed
invariant fails on a reachable state. -/
theorem C8_counterexample :
    (clientsDupVoice "c1").map (fun d => d.voices.map VoiceEntry.name)
      = some ["Dana", "Dana"] := rfl

/-- Claim C8 (amended): `upload_voice` neither rejects nor disambiguates
a colliding voice name — for a registered client it unconditionally
appends the new profile record, so the client's list of voice names
becomes the old list with the new name appended, and a client can hold
several profiles with the same name. -/
theorem C8_amended (m : Clients)
    (storage_path client_id voice_name : String)
    (gender : VoiceGender) (accent : Accent) (d : ClientData)
    (hm : m client_id = some d) :
    ∃ m2, upload_voice m storage_path client_id voice_name gender accent
        = .ok m2
      ∧ (m2 client_id).map (fun e => e.voices.map VoiceEntry.name)
        = some (d.voices.map VoiceEntry.name ++ [voice_name]) := by
  simp only [upload_voice, hm]
  refine ⟨_, rfl, ?_⟩
  simp

/-- Claim C8 (witness): `C8_amended` applied to the reachable registry
already holding a `Dana` profile for client `c1`, registering `Dana`
again: the resulting name list is `["Dana", "Dana"]`. -/
theorem C8_amended_witness :
    ∃ m2, upload_voice clientsOneVoice "client_voices" "c1" "Dana"
        VoiceGender.FEMALE Accent.AMERICAN = .ok m2
      ∧ (m2 "c1").map (fun e => e.voices.map VoiceEntry.name)
        = some ["Dana", "Dana"] :=
  C8_amended clientsOneVoice "client_voices" "c1" "Dana"
    VoiceGender.FEMALE Accent.AMERICAN
    { name := "Acme", company := "Co",
      voices := [{ name := "Dana", path := "client_voices/c1/Dana",
                   gender := "female", accent := "en" }],
      created_at := "t0" } rfl

/-- Claim C9: `get_client_voices` raises a not-found error for every
client id absent from the registry, and returns the empty list — not an
error — for every registered client whose voice list is empty. -/
theorem C9_get_client_voices (m : Clients) (client_id : String) :
    (m client_id = none →
      get_client_voices m client_id
        = .error ("Client " ++ client_id ++ " not found"))
    ∧ ∀ d, m client_id = some d → d.voices = [] →
        get_client_voices m client_id = .ok [] := by
  constructor
  · intro h
    simp [get_client_voices, h]
  · intro d hd hv
    simp [get_client_voices, hd, hv]

/-- Claim C9 (witness): `C9_get_client_voices` evaluated — the empty
registry raises not-found for an unknown id, and a client created by
`add_client` with no uploads yet gets the empty list. -/
theorem C9_get_client_voices_witness :
    get_client_voices emptyClients "nobody"
      = .error ("Client " ++ "nobody" ++ " not found")
    ∧ get_client_voices (add_client emptyClients "c1" "Acme" "Co" "t0") "c1"
      = .ok [] :=
  ⟨(C9_get_client_voices emptyClients "nobody").1 rfl,
   (C9_get_client_voices (add_client emptyClients "c1" "Acme" "Co" "t0")
      "c1").2
     { name := "Acme", company := "Co", voices := [], created_at := "t0" }
     rfl rfl⟩

/-- Claim C10: the preprocessing normalization divides the waveform by
its maximum absolute value with no guard for silence — on an all-zero
input the divisor is 0 (numpy then produces NaN samples instead of a
validation error; the rational model still yields a full-length sample
list rather than raising) — and every input containing a nonzero sample
normalizes to peak amplitude exactly 1 before int16 conversion. -/
theorem C10_peak_normalize :
    (∀ n : Nat, maxAbs (List.replicate n 0) = 0
      ∧ (peakNormalize (List.replicate n 0)).length = n)
    ∧ ∀ (audio : List ℚ) (x : ℚ), x ∈ audio → x ≠ 0 →
        maxAbs (peakNormalize audio) = 1 := by
  constructor
  · intro n
    constructor
    · induction n with
      | zero => rfl
      | succ k ih => rw [List.replicate_succ, maxAbs_cons, ih]; simp
    · simp [peakNormalize]
  · intro audio x hx hx0
    have hpos : 0 < maxAbs audio :=
      lt_of_lt_of_le (abs_pos.mpr hx0) (le_maxAbs_of_mem hx)
    unfold peakNormalize
    rw [maxAbs_map_div audio (maxAbs audio) hpos, div_self (ne_of_gt hpos)]

/-- Claim C10 (witness): `C10_peak_normalize` evaluated — a 5-sample
silent waveform has divisor 0 yet still yields 5 samples, and the
waveform `[1/2, -1/4]` normalizes to peak exactly 1. -/
theorem C10_peak_normalize_witness :
    (maxAbs (List.replicate 5 (0 : ℚ)) = 0
      ∧ (peakNormalize (List.replicate 5 (0 : ℚ))).length = 5)
    ∧ maxAbs (peakNormalize [1/2, -1/4]) = 1 :=
  ⟨C10_peak_normalize.1 5,
   C10_peak_normalize.2 [1/2, -1/4] (1/2) (by simp) (by norm_num)⟩

end ClervIQ
